import Mathlib

/-!
Verification of the two conversion scripts of the repository
(`convert_study_notes_to_usfm.py` and `convert_to_usfm.py`).

The scripts walk TipTap rich-text JSON trees, flatten them to strings,
substitute Scripture-citation patterns, and render USFM records.  The
embedding below models the JSON value space, the Python dynamic-error
behaviour (`TypeError`, `AttributeError`, ...) via `Except`, and the
regex substitutions (`re.sub`) as executable scanners.
-/

namespace BiblioNexus

/-- JSON-like values as produced by `json.load`.  Numeric payloads of the
repository are integers, so numbers are modelled as `Int`. -/
inductive Json where
  | null
  | bool (b : Bool)
  | num (n : Int)
  | str (s : String)
  | arr (elems : List Json)
  | obj (fields : List (String × Json))
deriving Repr

/-- Python exceptions that the modelled code can raise. -/
inductive PyError where
  | typeError
  | attributeError
  | indexError
  | keyError
deriving Repr, DecidableEq

instance {ε α : Type} [DecidableEq ε] [DecidableEq α] : DecidableEq (Except ε α) :=
  fun a b =>
    match a, b with
    | .ok x, .ok y =>
      if h : x = y then isTrue (by rw [h]) else isFalse (by simp [h])
    | .error e, .error f =>
      if h : e = f then isTrue (by rw [h]) else isFalse (by simp [h])
    | .ok _, .error _ => isFalse (by simp)
    | .error _, .ok _ => isFalse (by simp)

/-- Python dict lookup (`d.get(k)` / `d[k]`, `k in d`); dicts preserve
insertion order and have unique keys, so an association list suffices. -/
def jLookup : List (String × Json) → String → Option Json
  | [], _ => none
  | (k, v) :: rest, key => if k = key then some v else jLookup rest key

/-- Python iteration `for x in v`: lists yield their elements, dicts yield
their keys (as strings), strings yield their characters (as one-character
strings); any other value raises `TypeError` (modelled as `none`). -/
def pyIter : Json → Option (List Json)
  | .arr xs => some xs
  | .obj kvs => some (kvs.map (fun kv => Json.str kv.fst))
  | .str s => some (s.data.map (fun c => Json.str (String.singleton c)))
  | _ => none

/-- Python hashability: lists and dicts are unhashable (`x in some_dict`
raises `TypeError` on them); all other JSON values are hashable. -/
def hashable : Json → Bool
  | .arr _ => false
  | .obj _ => false
  | _ => true

/-- Python `v == s` for a string `s`: only equal strings compare equal
(no other JSON value equals a `str`). -/
def jsonEqStr : Json → String → Bool
  | .str t, s => t = s
  | _, _ => false

/-- `v in resource_map` for a dict whose keys are strings (assuming `v`
is hashable): true iff `v` is one of the keys. -/
def inKeys (j : Json) (rm : List (String × String)) : Bool :=
  rm.any (fun kv => jsonEqStr j kv.fst)

mutual
/-- Python `str(v)` as used by the f-strings of the scripts. -/
def pyStr : Json → String
  | .null => "None"
  | .bool true => "True"
  | .bool false => "False"
  | .num n => toString n
  | .str s => s
  | .arr xs => "[" ++ pyReprList xs ++ "]"
  | .obj kvs => "\x7b" ++ pyReprFields kvs ++ "\x7d"

/-- Python `repr(v)` (string escaping inside nested reprs is not needed by
any claim and strings are rendered between plain quotes). -/
def pyRepr : Json → String
  | .null => "None"
  | .bool true => "True"
  | .bool false => "False"
  | .num n => toString n
  | .str s => "\x27" ++ s ++ "\x27"
  | .arr xs => "[" ++ pyReprList xs ++ "]"
  | .obj kvs => "\x7b" ++ pyReprFields kvs ++ "\x7d"

def pyReprList : List Json → String
  | [] => ""
  | [x] => pyRepr x
  | x :: y :: rest => pyRepr x ++ ", " ++ pyReprList (y :: rest)

def pyReprFields : List (String × Json) → String
  | [] => ""
  | [kv] => "\x27" ++ kv.fst ++ "\x27: " ++ pyRepr kv.snd
  | kv :: kv2 :: rest =>
    "\x27" ++ kv.fst ++ "\x27: " ++ pyRepr kv.snd ++ ", " ++ pyReprFields (kv2 :: rest)
end

/-- String weight used only by the termination measure `jsize`:
one-character and empty strings weigh `0` (so the fresh one-character
string nodes produced by iterating over a string stay below the parent),
longer strings weigh their length. -/
def jstrSize (s : String) : Nat := if s.data.length ≤ 1 then 0 else s.data.length

mutual
/-- Termination measure for the recursive tree walk. -/
def jsize : Json → Nat
  | .null => 0
  | .bool _ => 0
  | .num _ => 0
  | .str s => jstrSize s
  | .arr xs => 1 + jsizeList xs
  | .obj kvs => 1 + jsizeFields kvs

def jsizeList : List Json → Nat
  | [] => 0
  | x :: xs => jsize x + 1 + jsizeList xs

def jsizeFields : List (String × Json) → Nat
  | [] => 0
  | kv :: rest => jstrSize kv.fst + jsize kv.snd + 1 + jsizeFields rest
end

theorem jLookup_size {kvs : List (String × Json)} {k : String} {v : Json}
    (h : jLookup kvs k = some v) : jsize v + 1 ≤ jsizeFields kvs := by
  induction kvs with
  | nil => simp [jLookup] at h
  | cons kv rest ih =>
    obtain ⟨k0, v0⟩ := kv
    simp only [jLookup] at h
    by_cases hk : k0 = k
    · simp [hk] at h
      subst h
      simp [jsizeFields]
      omega
    · simp [hk] at h
      have := ih h
      simp [jsizeFields]
      omega

theorem jsizeList_keys (kvs : List (String × Json)) :
    jsizeList (kvs.map (fun kv => Json.str kv.fst)) ≤ jsizeFields kvs := by
  induction kvs with
  | nil => simp [jsizeList, jsizeFields]
  | cons kv rest ih =>
    simp only [List.map, jsizeList, jsizeFields, jsize]
    omega

theorem jsizeList_chars (cs : List Char) :
    jsizeList (cs.map (fun c => Json.str (String.singleton c))) = cs.length := by
  induction cs with
  | nil => simp [jsizeList]
  | cons c rest ih =>
    simp only [List.map, jsizeList, jsize, ih, List.length_cons]
    have : jstrSize (String.singleton c) = 0 := by
      simp [jstrSize, String.singleton, String.push]
    omega

theorem pyIter_size {v : Json} {items : List Json}
    (h : pyIter v = some items) : jsizeList items ≤ jsize v + 1 := by
  match v with
  | .arr xs =>
    simp [pyIter] at h
    subst h
    simp [jsize]
    omega
  | .obj kvs =>
    simp [pyIter] at h
    subst h
    have := jsizeList_keys kvs
    simp [jsize]
    omega
  | .str s =>
    simp [pyIter] at h
    subst h
    have := jsizeList_chars s.data
    simp only [jsize, jstrSize, String.length] at *
    split <;> omega
  | .null | .bool _ | .num _ => simp [pyIter] at h

/-- The `for mark in tiptap_content.get('marks', [])` loop of
`extract_text_from_tiptap` in `convert_study_notes_to_usfm.py`
(lines 26–31): returns `true` when the loop hits
`return f"\k {text}\k*"`, `false` when it falls through, and an error
when a loop step raises (`mark.get` on a non-dict raises
`AttributeError`, `.get('resourceId')` on a non-dict `attrs` raises
`AttributeError`, membership test with an unhashable key raises
`TypeError`). -/
def scanMarks (resource_map : List (String × String)) : List Json → Except PyError Bool
  | [] => .ok false
  | mark :: rest =>
    match mark with
    | .obj mfs =>
      if jsonEqStr ((jLookup mfs "type").getD .null) "resourceReference" then
        match (jLookup mfs "attrs").getD (.obj []) with
        | .obj afs =>
          -- resource_id = mark.get('attrs', {}).get('resourceId')
          -- if resource_map and resource_id in resource_map: return tagged
          if resource_map.isEmpty then scanMarks resource_map rest
          else if hashable ((jLookup afs "resourceId").getD .null) then
            if inKeys ((jLookup afs "resourceId").getD .null) resource_map then .ok true
            else scanMarks resource_map rest
          else .error .typeError
        | _ => .error .attributeError
      else scanMarks resource_map rest
    | _ => .error .attributeError

mutual
/-- `extract_text_from_tiptap` from `convert_study_notes_to_usfm.py`
(lines 9–50).  The result is a `Json` value because Python returns the
raw `'text'` value unchanged (which need not be a string); Python
exceptions are modelled in `Except`. -/
def extract_text_from_tiptap (tiptap_content : Json)
    (resource_map : List (String × String)) : Except PyError Json :=
  match tiptap_content with
  | .obj fields =>
    -- if 'text' in tiptap_content
    match jLookup fields "text" with
    | some text =>
      -- if 'marks' in tiptap_content: for mark in tiptap_content.get('marks', [])
      match jLookup fields "marks" with
      | some marksVal =>
        match pyIter marksVal with
        | none => .error .typeError
        | some marks =>
          match scanMarks resource_map marks with
          | .error e => .error e
          | .ok true => .ok (.str ("\\k " ++ pyStr text ++ "\\k*"))
          | .ok false => .ok text
      | none => .ok text
    | none =>
      -- if 'content' in tiptap_content
      match hcv : jLookup fields "content" with
      | some cv =>
        match hit : pyIter cv with
        | none => .error .typeError
        | some items => (extractConcat items resource_map).map Json.str
      | none => .ok (.str "")
  | .arr items => (extractConcat items resource_map).map Json.str
  | _ => .ok (.str "")
termination_by jsize tiptap_content
decreasing_by
  · have h1 := jLookup_size hcv
    have h2 := pyIter_size hit
    simp only [jsize]
    omega
  · simp only [jsize]
    omega

/-- The `result = ""; for item in ...: result += extract_text_from_tiptap(item, ...)`
accumulation loop shared by the list and `'content'` branches
(`convert_study_notes_to_usfm.py` lines 38–41 and 45–48); `str += v`
raises `TypeError` when the recursive call returns a non-string. -/
def extractConcat (items : List Json) (resource_map : List (String × String)) :
    Except PyError String :=
  match items with
  | [] => .ok ""
  | x :: xs =>
    match extract_text_from_tiptap x resource_map with
    | .error e => .error e
    | .ok (.str s) =>
      match extractConcat xs resource_map with
      | .error e => .error e
      | .ok acc => .ok (s ++ acc)
    | .ok _ => .error .typeError
termination_by jsizeList items
decreasing_by
  · simp only [jsizeList]
    omega
  · simp only [jsizeList]
    omega
end

/-- The mark-scanning loop of `extract_text_from_tiptap` in
`convert_to_usfm.py` (lines 25–30); the source code is identical to the
study-notes copy. -/
def scanMarks2 (resource_map : List (String × String)) : List Json → Except PyError Bool
  | [] => .ok false
  | mark :: rest =>
    match mark with
    | .obj mfs =>
      if jsonEqStr ((jLookup mfs "type").getD .null) "resourceReference" then
        match (jLookup mfs "attrs").getD (.obj []) with
        | .obj afs =>
          if resource_map.isEmpty then scanMarks2 resource_map rest
          else if hashable ((jLookup afs "resourceId").getD .null) then
            if inKeys ((jLookup afs "resourceId").getD .null) resource_map then .ok true
            else scanMarks2 resource_map rest
          else .error .typeError
        | _ => .error .attributeError
      else scanMarks2 resource_map rest
    | _ => .error .attributeError

mutual
/-- `extract_text_from_tiptap` from `convert_to_usfm.py` (lines 8–49);
the source code is identical to the study-notes copy. -/
def extract_text_from_tiptap2 (tiptap_content : Json)
    (resource_map : List (String × String)) : Except PyError Json :=
  match tiptap_content with
  | .obj fields =>
    match jLookup fields "text" with
    | some text =>
      match jLookup fields "marks" with
      | some marksVal =>
        match pyIter marksVal with
        | none => .error .typeError
        | some marks =>
          match scanMarks2 resource_map marks with
          | .error e => .error e
          | .ok true => .ok (.str ("\\k " ++ pyStr text ++ "\\k*"))
          | .ok false => .ok text
      | none => .ok text
    | none =>
      match hcv : jLookup fields "content" with
      | some cv =>
        match hit : pyIter cv with
        | none => .error .typeError
        | some items => (extractConcat2 items resource_map).map Json.str
      | none => .ok (.str "")
  | .arr items => (extractConcat2 items resource_map).map Json.str
  | _ => .ok (.str "")
termination_by jsize tiptap_content
decreasing_by
  · have h1 := jLookup_size hcv
    have h2 := pyIter_size hit
    simp only [jsize]
    omega
  · simp only [jsize]
    omega

/-- The string accumulation loop of `extract_text_from_tiptap` in
`convert_to_usfm.py` (lines 37–40 and 44–47). -/
def extractConcat2 (items : List Json) (resource_map : List (String × String)) :
    Except PyError String :=
  match items with
  | [] => .ok ""
  | x :: xs =>
    match extract_text_from_tiptap2 x resource_map with
    | .error e => .error e
    | .ok (.str s) =>
      match extractConcat2 xs resource_map with
      | .error e => .error e
      | .ok acc => .ok (s ++ acc)
    | .ok _ => .error .typeError
termination_by jsizeList items
decreasing_by
  · simp only [jsizeList]
    omega
  · simp only [jsizeList]
    omega
end

/-! ### Shape predicates

`markWF`/`nodeWF` delimit the inputs on which the tree walk completes
without raising; `markMatches` mirrors the success condition of the
`for mark in ...` loop, and `isResourceRefMark`/`markId` phrase the same
condition the way the specification does. -/

/-- A mark that one iteration of the scanning loop can process without
raising: it is a dict, and when its `'type'` is `"resourceReference"`
its `'attrs'` (defaulting to `{}`) is a dict whose `'resourceId'` is
hashable (the hashability of the identifier only matters when the
resource map is non-empty, because `resource_map and ...`
short-circuits). -/
def markWF (resource_map : List (String × String)) (mark : Json) : Bool :=
  match mark with
  | .obj mfs =>
    if jsonEqStr ((jLookup mfs "type").getD .null) "resourceReference" then
      match (jLookup mfs "attrs").getD (.obj []) with
      | .obj afs =>
        resource_map.isEmpty || hashable ((jLookup afs "resourceId").getD .null)
      | _ => false
    else true
  | _ => false

/-- The exact condition under which one iteration of the scanning loop
executes `return f"\k {text}\k*"`. -/
def markMatches (resource_map : List (String × String)) (mark : Json) : Bool :=
  match mark with
  | .obj mfs =>
    jsonEqStr ((jLookup mfs "type").getD .null) "resourceReference" &&
      (match (jLookup mfs "attrs").getD (.obj []) with
       | .obj afs =>
         !resource_map.isEmpty &&
           hashable ((jLookup afs "resourceId").getD .null) &&
           inKeys ((jLookup afs "resourceId").getD .null) resource_map
       | _ => false)
  | _ => false

/-- A mark of kind `resourceReference` (a dict whose `'type'` equals the
string `"resourceReference"`). -/
def isResourceRefMark (mark : Json) : Bool :=
  match mark with
  | .obj mfs => jsonEqStr ((jLookup mfs "type").getD .null) "resourceReference"
  | _ => false

/-- The identifier carried by a mark: `mark.get('attrs', {}).get('resourceId')`
(meaningful when the `'attrs'` value is a dict; `None` otherwise). -/
def markId (mark : Json) : Json :=
  match mark with
  | .obj mfs =>
    match (jLookup mfs "attrs").getD (.obj []) with
    | .obj afs => (jLookup afs "resourceId").getD .null
    | _ => .null
  | _ => .null

/-- The marks of a text leaf are well-formed: the `'marks'` key is absent,
or its value is iterable and every iterated mark is `markWF`. -/
def leafMarksWF (resource_map : List (String × String))
    (fields : List (String × Json)) : Prop :=
  match jLookup fields "marks" with
  | none => True
  | some mv =>
    match pyIter mv with
    | none => False
    | some marks => ∀ m ∈ marks, markWF resource_map m = true

/-- The leaf carries (in its iterated `'marks'`) a mark of kind
`resourceReference` whose identifier is a key of the resource map. -/
def hasMapMark (resource_map : List (String × String))
    (fields : List (String × Json)) : Bool :=
  match jLookup fields "marks" with
  | none => false
  | some mv =>
    match pyIter mv with
    | none => false
    | some marks =>
      marks.any (fun m => isResourceRefMark m && inKeys (markId m) resource_map)

mutual
/-- Well-formed rich-text nodes: every `'text'` value is a string, every
`'marks'` value is iterable with `markWF` marks, every `'content'` value
is iterable with well-formed elements.  On such inputs the tree walk
never raises (and arbitrary nodes without `'text'`/`'content'`/`'marks'`
structure are fine: they degrade to `""`). -/
def nodeWF (resource_map : List (String × String)) (node : Json) : Bool :=
  match node with
  | .obj fields =>
    match jLookup fields "text" with
    | some t =>
      (match t with
       | .str _ => true
       | _ => false) &&
      (match jLookup fields "marks" with
       | none => true
       | some mv =>
         match pyIter mv with
         | none => false
         | some marks => marks.all (markWF resource_map))
    | none =>
      match hcv : jLookup fields "content" with
      | some cv =>
        match hit : pyIter cv with
        | none => false
        | some items => listWF resource_map items
      | none => true
  | .arr items => listWF resource_map items
  | _ => true
termination_by jsize node
decreasing_by
  · have h1 := jLookup_size hcv
    have h2 := pyIter_size hit
    simp only [jsize]
    omega
  · simp only [jsize]
    omega

def listWF (resource_map : List (String × String)) (items : List Json) : Bool :=
  match items with
  | [] => true
  | x :: xs => nodeWF resource_map x && listWF resource_map xs
termination_by jsizeList items
decreasing_by
  · simp only [jsizeList]
    omega
  · simp only [jsizeList]
    omega
end

/-! ### Text substitution

`str.replace` and the three `re.sub` pattern shapes used by
`format_scripture_references` (`"<book> chapter (\d+)"`,
`"<book> chapters (\d+) and (\d+)"` and the literal
`"book of <book>"`).  All three regexes are a literal alternation-free
sequence of literals and greedy `\d+` groups followed by a non-digit, so
leftmost non-overlapping scanning with maximal digit runs is exactly
Python's `re.sub` semantics.  `\d` is modelled as the ASCII digits (the
texts the scripts process, and every claim, are ASCII). -/

/-- Match a literal at the head of the input, returning the rest. -/
def dropLit : List Char → List Char → Option (List Char)
  | [], cs => some cs
  | _ :: _, [] => none
  | p :: ps, c :: cs => if c = p then dropLit ps cs else none

/-- Greedy `\d+`-style scan: the maximal run of leading digits and the rest. -/
def takeDigits : List Char → List Char × List Char
  | [] => ([], [])
  | c :: cs =>
    if c.isDigit then
      let (ds, rest) := takeDigits cs
      (c :: ds, rest)
    else ([], c :: cs)

/-- Left-to-right non-overlapping substitution scan.  `step cs` attempts a
match at the head of `cs`, returning the replacement text and the number
of consumed characters (always ≥ 1 for the patterns used here); after a
match the scan resumes right after the consumed characters, exactly like
`re.sub` / `str.replace`. -/
def subScan (step : List Char → Option (List Char × Nat)) :
    Nat → List Char → List Char
  | _, [] => []
  | Nat.succ s, _ :: rest => subScan step s rest
  | 0, c :: rest =>
    match step (c :: rest) with
    | some (repl, consumed) => repl ++ subScan step (consumed - 1) rest
    | none => c :: subScan step 0 rest

/-- One literal-substitution attempt (for `str.replace` and for the
metacharacter-free pattern of the `"book of <book>"` rule). -/
def litStep (pat repl : List Char) (cs : List Char) : Option (List Char × Nat) :=
  match dropLit pat cs with
  | some _ => some (repl, pat.length)
  | none => none

/-- Python `text.replace(old, new)` (all occurrences, leftmost first,
non-overlapping).  With an empty `old`, Python interleaves `new` around
every character; the scripts never do that, but the case is modelled. -/
def pyReplace (s old new : String) : String :=
  match old.data with
  | [] => ⟨new.data ++ (s.data.map (fun c => c :: new.data)).flatten⟩
  | p :: ps => ⟨subScan (litStep (p :: ps) new.data) 0 s.data⟩

/-- One match attempt of `re.sub(f"{book} chapter (\d+)", f"\\xt {book} \1\\xt*", ...)`
at the head of the input. -/
def chapterStep (book : List Char) (cs : List Char) : Option (List Char × Nat) :=
  match dropLit (book ++ (" chapter ").data) cs with
  | none => none
  | some rest1 =>
    match takeDigits rest1 with
    | ([], _) => none
    | (ds, _) =>
      some (("\\xt ").data ++ book ++ [' '] ++ ds ++ ("\\xt*").data,
        book.length + 9 + ds.length)

/-- One match attempt of
`re.sub(f"{book} chapters (\d+) and (\d+)", f"\\xt {book} \1-\2\\xt*", ...)`. -/
def chaptersStep (book : List Char) (cs : List Char) : Option (List Char × Nat) :=
  match dropLit (book ++ (" chapters ").data) cs with
  | none => none
  | some rest1 =>
    match takeDigits rest1 with
    | ([], _) => none
    | (ds1, rest2) =>
      match dropLit ((" and ").data) rest2 with
      | none => none
      | some rest3 =>
        match takeDigits rest3 with
        | ([], _) => none
        | (ds2, _) =>
          some (("\\xt ").data ++ book ++ [' '] ++ ds1 ++ ['-'] ++ ds2 ++ ("\\xt*").data,
            book.length + 10 + ds1.length + 5 + ds2.length)

/-- `re.sub(f"{book} chapter (\d+)", f"\\xt {book} \1\\xt*", text)`. -/
def subChapter (book : String) (text : String) : String :=
  ⟨subScan (chapterStep book.data) 0 text.data⟩

/-- `re.sub(f"{book} chapters (\d+) and (\d+)", f"\\xt {book} \1-\2\\xt*", text)`. -/
def subChapters (book : String) (text : String) : String :=
  ⟨subScan (chaptersStep book.data) 0 text.data⟩

/-- `re.sub(f"book of {book}", f"book of \\xt {book}\\xt*", text)` — the
pattern is metacharacter-free, hence a literal replace-all. -/
def subBookOf (book : String) (text : String) : String :=
  pyReplace text ("book of " ++ book) ("book of \\xt " ++ book ++ "\\xt*")

/-- The `bible_books` list (identical in `convert_study_notes_to_usfm.py`
lines 63–75 and `convert_to_usfm.py` lines 62–74). -/
def bible_books : List String := [
  "Genesis", "Exodus", "Leviticus", "Numbers", "Deuteronomy",
  "Joshua", "Judges", "Ruth", "1 Samuel", "2 Samuel", "1 Kings", "2 Kings",
  "1 Chronicles", "2 Chronicles", "Ezra", "Nehemiah", "Esther", "Job",
  "Psalm", "Psalms", "Proverbs", "Ecclesiastes", "Song of Solomon", "Song of Songs",
  "Isaiah", "Jeremiah", "Lamentations", "Ezekiel", "Daniel", "Hosea", "Joel",
  "Amos", "Obadiah", "Jonah", "Micah", "Nahum", "Habakkuk", "Zephaniah", "Haggai",
  "Zechariah", "Malachi", "Matthew", "Mark", "Luke", "John", "Acts", "Romans",
  "1 Corinthians", "2 Corinthians", "Galatians", "Ephesians", "Philippians",
  "Colossians", "1 Thessalonians", "2 Thessalonians", "1 Timothy", "2 Timothy",
  "Titus", "Philemon", "Hebrews", "James", "1 Peter", "2 Peter", "1 John", "2 John",
  "3 John", "Jude", "Revelation"]

/-- `format_scripture_references` from `convert_study_notes_to_usfm.py`
(lines 52–101): seven hard-coded literal substitutions, then the
`"<book> chapter <N>"`, `"<book> chapters <N> and <M>"` and
`"book of <book>"` pattern rules, each applied for every book in
`bible_books` in list order. -/
def format_scripture_references (text : String) : String :=
  let t := pyReplace text "Exodus 3:14" "\\xt Exodus 3:14\\xt*"
  let t := pyReplace t "Luke 8:31" "\\xt Luke 8:31\\xt*"
  let t := pyReplace t "Psalm 95" "\\xt Psalm 95\\xt*"
  let t := pyReplace t "Acts 25-26" "\\xt Acts 25-26\\xt*"
  let t := pyReplace t "Judges 5" "\\xt Judges 5\\xt*"
  let t := pyReplace t "Zechariah 8" "\\xt Zechariah 8\\xt*"
  let t := pyReplace t "Exodus 34:6" "\\xt Exodus 34:6\\xt*"
  let t := bible_books.foldl (fun s book => subChapter book s) t
  let t := bible_books.foldl (fun s book => subChapters book s) t
  bible_books.foldl (fun s book => subBookOf book s) t

/-- `format_scripture_references` from `convert_to_usfm.py`
(lines 51–99): identical except that the hard-coded literal block has
only six substitutions — it lacks the `"Exodus 34:6"` one. -/
def format_scripture_references2 (text : String) : String :=
  let t := pyReplace text "Exodus 3:14" "\\xt Exodus 3:14\\xt*"
  let t := pyReplace t "Luke 8:31" "\\xt Luke 8:31\\xt*"
  let t := pyReplace t "Psalm 95" "\\xt Psalm 95\\xt*"
  let t := pyReplace t "Acts 25-26" "\\xt Acts 25-26\\xt*"
  let t := pyReplace t "Judges 5" "\\xt Judges 5\\xt*"
  let t := pyReplace t "Zechariah 8" "\\xt Zechariah 8\\xt*"
  let t := bible_books.foldl (fun s book => subChapter book s) t
  let t := bible_books.foldl (fun s book => subChapters book s) t
  bible_books.foldl (fun s book => subBookOf book s) t

/-- The dictionary-pipeline tagger with the study-notes pipeline's extra
`"Exodus 34:6"` literal rule added in the same (last) position of the
literal block — the amendment under which the two taggers coincide. -/
def format_scripture_references2_withExodus (text : String) : String :=
  let t := pyReplace text "Exodus 3:14" "\\xt Exodus 3:14\\xt*"
  let t := pyReplace t "Luke 8:31" "\\xt Luke 8:31\\xt*"
  let t := pyReplace t "Psalm 95" "\\xt Psalm 95\\xt*"
  let t := pyReplace t "Acts 25-26" "\\xt Acts 25-26\\xt*"
  let t := pyReplace t "Judges 5" "\\xt Judges 5\\xt*"
  let t := pyReplace t "Zechariah 8" "\\xt Zechariah 8\\xt*"
  let t := pyReplace t "Exodus 34:6" "\\xt Exodus 34:6\\xt*"
  let t := bible_books.foldl (fun s book => subChapter book s) t
  let t := bible_books.foldl (fun s book => subChapters book s) t
  bible_books.foldl (fun s book => subBookOf book s) t

/-! ### Filename parsing, book codes and the study-notes document processor -/

/-- Python `s.split(sep)` on the character list: splitting on every
occurrence of the separator, keeping empty segments (`"".split(sep)`
is `[""]`, like Python with an explicit separator). -/
def splitChars (sep : Char) : List Char → List (List Char)
  | [] => [[]]
  | c :: rest =>
    match splitChars sep rest with
    | [] => [[]]
    | seg :: segs => if c = sep then [] :: seg :: segs else (c :: seg) :: segs

/-- Python `s.split(sep)` for a single-character separator. -/
def pySplit (s : String) (sep : Char) : List String :=
  (splitChars sep s.data).map String.mk

/-- `os.path.basename` (POSIX): the part after the last `'/'`. -/
def pyBasename (p : String) : String := (pySplit p '/').getLastD ""

/-- Python `s.isdigit()` (the filenames here are ASCII): non-empty and
all characters are digits. -/
def pyIsDigit (s : String) : Bool := !s.isEmpty && s.data.all Char.isDigit

/-- `extract_book_and_reference` from `convert_study_notes_to_usfm.py`
(lines 125–151).  `parts[1]` raises `IndexError` when a purely numeric
first segment has no successor; the trailing segment (the internal id
plus extension) is dropped by the `[.. : -1]` slices; the kept middle
segments are joined with `'_'` and the underscores then replaced by
`':'`. -/
def extract_book_and_reference (filename : String) :
    Except PyError (String × String) :=
  let base_name := pyBasename filename
  let parts := pySplit base_name '_'
  match parts with
  | [] => .error .indexError
  | p0 :: rest =>
    if pyIsDigit p0 then
      match rest with
      | [] => .error .indexError
      | p1 :: _ =>
        let reference_parts := ((p0 :: rest).drop 2).dropLast
        .ok (p0 ++ " " ++ p1,
          pyReplace (String.intercalate "_" reference_parts) "_" ":")
    else
      let reference_parts := rest.dropLast
      .ok (p0, pyReplace (String.intercalate "_" reference_parts) "_" ":")

/-- The `book_ids` table of `get_book_id`
(`convert_study_notes_to_usfm.py` lines 163–179). -/
def book_ids : List (String × String) := [
  ("Genesis", "GEN"), ("Exodus", "EXO"), ("Leviticus", "LEV"), ("Numbers", "NUM"),
  ("Deuteronomy", "DEU"), ("Joshua", "JOS"), ("Judges", "JDG"), ("Ruth", "RUT"),
  ("1 Samuel", "1SA"), ("2 Samuel", "2SA"), ("1 Kings", "1KI"), ("2 Kings", "2KI"),
  ("1 Chronicles", "1CH"), ("2 Chronicles", "2CH"), ("Ezra", "EZR"), ("Nehemiah", "NEH"),
  ("Esther", "EST"), ("Job", "JOB"), ("Psalms", "PSA"), ("Proverbs", "PRO"),
  ("Ecclesiastes", "ECC"), ("Song of Solomon", "SNG"), ("Isaiah", "ISA"),
  ("Jeremiah", "JER"), ("Lamentations", "LAM"), ("Ezekiel", "EZK"), ("Daniel", "DAN"),
  ("Hosea", "HOS"), ("Joel", "JOL"), ("Amos", "AMO"), ("Obadiah", "OBA"),
  ("Jonah", "JON"), ("Micah", "MIC"), ("Nahum", "NAM"), ("Habakkuk", "HAB"),
  ("Zephaniah", "ZEP"), ("Haggai", "HAG"), ("Zechariah", "ZEC"), ("Malachi", "MAL"),
  ("Matthew", "MAT"), ("Mark", "MRK"), ("Luke", "LUK"), ("John", "JHN"),
  ("Acts", "ACT"), ("Romans", "ROM"), ("1 Corinthians", "1CO"), ("2 Corinthians", "2CO"),
  ("Galatians", "GAL"), ("Ephesians", "EPH"), ("Philippians", "PHP"),
  ("Colossians", "COL"), ("1 Thessalonians", "1TH"), ("2 Thessalonians", "2TH"),
  ("1 Timothy", "1TI"), ("2 Timothy", "2TI"), ("Titus", "TIT"), ("Philemon", "PHM"),
  ("Hebrews", "HEB"), ("James", "JAS"), ("1 Peter", "1PE"), ("2 Peter", "2PE"),
  ("1 John", "1JN"), ("2 John", "2JN"), ("3 John", "3JN"), ("Jude", "JUD"),
  ("Revelation", "REV")]

/-- First-match association lookup (Python dict `.get`; the keys of
`book_ids` are distinct). -/
def strLookup : List (String × String) → String → Option String
  | [], _ => none
  | (k, v) :: rest, key => if k = key then some v else strLookup rest key

/-- `get_book_id` from `convert_study_notes_to_usfm.py` (lines 153–181):
`book_ids.get(book_name, "UNK")`. -/
def get_book_id (book_name : String) : String :=
  (strLookup book_ids book_name).getD "UNK"

/-- Python `'tiptap' in v`: key test for dicts, element test for lists,
substring test for strings, `TypeError` otherwise. -/
def pyContains (v : Json) (key : String) : Except PyError Bool :=
  match v with
  | .obj kvs => .ok (jLookup kvs key).isSome
  | .arr xs => .ok (xs.any (fun x => jsonEqStr x key))
  | .str s => .ok (containsSub key.data s.data)
  | _ => .error .typeError
where
  containsSub (pat : List Char) : List Char → Bool
    | [] => (dropLit pat []).isSome
    | c :: rest => (dropLit pat (c :: rest)).isSome || containsSub pat rest

/-- Python `v['tiptap']`: dict lookup (`KeyError` when absent); string
subscripts on lists and strings raise `TypeError`. -/
def pySubscript (v : Json) (key : String) : Except PyError Json :=
  match v with
  | .obj kvs =>
    match jLookup kvs key with
    | some w => .ok w
    | none => .error .keyError
  | _ => .error .typeError

/-- The `for content_item in data.get('content', []): if 'tiptap' in
content_item: content_text += extract_text_from_tiptap(...)` loop of
`process_json_file` (`convert_study_notes_to_usfm.py` lines 204–208). -/
def processContent (items : List Json) (resource_map : List (String × String)) :
    Except PyError String :=
  match items with
  | [] => .ok ""
  | it :: rest =>
    match pyContains it "tiptap" with
    | .error e => .error e
    | .ok false => processContent rest resource_map
    | .ok true =>
      match pySubscript it "tiptap" with
      | .error e => .error e
      | .ok td =>
        match extract_text_from_tiptap td resource_map with
        | .error e => .error e
        | .ok (.str s) =>
          match processContent rest resource_map with
          | .error e => .error e
          | .ok acc => .ok (s ++ acc)
        | .ok _ => .error .typeError

/-- `process_json_file` from `convert_study_notes_to_usfm.py`
(lines 183–216).  File I/O is replaced by passing the parsed JSON
`data`; the function returns `(book_name, reference, usfm_content)`
where `reference` is the raw `data.get('name', '')` value.  Note the
reference computed from the filename is discarded
(`book_name, _ = extract_book_and_reference(file_path)`). -/
def process_json_file (file_path : String) (data : Json)
    (resource_map : List (String × String)) :
    Except PyError (String × Json × String) :=
  match data with
  | .obj dfs =>
    let reference := (jLookup dfs "name").getD (.str "")
    match extract_book_and_reference file_path with
    | .error e => .error e
    | .ok (book_name, _) =>
      match pyIter ((jLookup dfs "content").getD (.arr [])) with
      | none => .error .typeError
      | some items =>
        match processContent items resource_map with
        | .error e => .error e
        | .ok content_text =>
          let content_text := format_scripture_references content_text
          .ok (book_name, reference,
            "\\im \\bd " ++ pyStr reference ++ "\\bd* " ++ content_text ++ "\n")
  | _ => .error .attributeError

/-! ### Unfolding lemmas for the tree walk -/

theorem jsize_mem {x : Json} {items : List Json} (h : x ∈ items) :
    jsize x < jsizeList items := by
  induction items with
  | nil => cases h
  | cons y ys ih =>
    rcases List.mem_cons.mp h with h | h
    · subst h
      simp only [jsizeList]
      omega
    · have := ih h
      simp only [jsizeList]
      omega

theorem extract_leaf (fields : List (String × Json)) (rm : List (String × String))
    (text : Json) (ht : jLookup fields "text" = some text) :
    extract_text_from_tiptap (.obj fields) rm =
      match jLookup fields "marks" with
      | some mv =>
        match pyIter mv with
        | none => .error .typeError
        | some marks =>
          match scanMarks rm marks with
          | .error e => .error e
          | .ok true => .ok (.str ("\\k " ++ pyStr text ++ "\\k*"))
          | .ok false => .ok text
      | none => .ok text := by
  rw [extract_text_from_tiptap.eq_def]
  simp only [ht]

theorem extract_content (fields : List (String × Json)) (rm : List (String × String))
    (cv : Json) (ht : jLookup fields "text" = none)
    (hc : jLookup fields "content" = some cv) :
    extract_text_from_tiptap (.obj fields) rm =
      match pyIter cv with
      | none => .error .typeError
      | some items => (extractConcat items rm).map Json.str := by
  rw [extract_text_from_tiptap.eq_def]
  simp only [ht]
  split
  · rename_i cv2 hcv2
    rw [hc] at hcv2
    injection hcv2 with h
    subst h
    split
    · rename_i heq
      simp only [heq]
    · rename_i items heq
      simp only [heq]
  · rename_i hcv2
    rw [hc] at hcv2
    cases hcv2

theorem extract_objEmpty (fields : List (String × Json)) (rm : List (String × String))
    (ht : jLookup fields "text" = none) (hc : jLookup fields "content" = none) :
    extract_text_from_tiptap (.obj fields) rm = .ok (.str "") := by
  rw [extract_text_from_tiptap.eq_def]
  simp only [ht]
  split
  · rename_i cv2 hcv2
    rw [hc] at hcv2
    cases hcv2
  · rfl

theorem extract_arr (items : List Json) (rm : List (String × String)) :
    extract_text_from_tiptap (.arr items) rm = (extractConcat items rm).map Json.str := by
  rw [extract_text_from_tiptap.eq_def]

theorem extractConcat_cons (x : Json) (xs : List Json) (rm : List (String × String)) :
    extractConcat (x :: xs) rm =
      match extract_text_from_tiptap x rm with
      | .error e => .error e
      | .ok (.str s) =>
        match extractConcat xs rm with
        | .error e => .error e
        | .ok acc => .ok (s ++ acc)
      | .ok _ => .error .typeError := by
  rw [extractConcat.eq_def]

theorem extractConcat_nil (rm : List (String × String)) :
    extractConcat [] rm = .ok "" := by
  rw [extractConcat.eq_def]

theorem extract2_leaf (fields : List (String × Json)) (rm : List (String × String))
    (text : Json) (ht : jLookup fields "text" = some text) :
    extract_text_from_tiptap2 (.obj fields) rm =
      match jLookup fields "marks" with
      | some mv =>
        match pyIter mv with
        | none => .error .typeError
        | some marks =>
          match scanMarks2 rm marks with
          | .error e => .error e
          | .ok true => .ok (.str ("\\k " ++ pyStr text ++ "\\k*"))
          | .ok false => .ok text
      | none => .ok text := by
  rw [extract_text_from_tiptap2.eq_def]
  simp only [ht]

theorem extract2_content (fields : List (String × Json)) (rm : List (String × String))
    (cv : Json) (ht : jLookup fields "text" = none)
    (hc : jLookup fields "content" = some cv) :
    extract_text_from_tiptap2 (.obj fields) rm =
      match pyIter cv with
      | none => .error .typeError
      | some items => (extractConcat2 items rm).map Json.str := by
  rw [extract_text_from_tiptap2.eq_def]
  simp only [ht]
  split
  · rename_i cv2 hcv2
    rw [hc] at hcv2
    injection hcv2 with h
    subst h
    split
    · rename_i heq
      simp only [heq]
    · rename_i items heq
      simp only [heq]
  · rename_i hcv2
    rw [hc] at hcv2
    cases hcv2

theorem extract2_objEmpty (fields : List (String × Json)) (rm : List (String × String))
    (ht : jLookup fields "text" = none) (hc : jLookup fields "content" = none) :
    extract_text_from_tiptap2 (.obj fields) rm = .ok (.str "") := by
  rw [extract_text_from_tiptap2.eq_def]
  simp only [ht]
  split
  · rename_i cv2 hcv2
    rw [hc] at hcv2
    cases hcv2
  · rfl

theorem extract2_arr (items : List Json) (rm : List (String × String)) :
    extract_text_from_tiptap2 (.arr items) rm = (extractConcat2 items rm).map Json.str := by
  rw [extract_text_from_tiptap2.eq_def]

theorem extractConcat2_cons (x : Json) (xs : List Json) (rm : List (String × String)) :
    extractConcat2 (x :: xs) rm =
      match extract_text_from_tiptap2 x rm with
      | .error e => .error e
      | .ok (.str s) =>
        match extractConcat2 xs rm with
        | .error e => .error e
        | .ok acc => .ok (s ++ acc)
      | .ok _ => .error .typeError := by
  rw [extractConcat2.eq_def]

theorem extractConcat2_nil (rm : List (String × String)) :
    extractConcat2 [] rm = .ok "" := by
  rw [extractConcat2.eq_def]

end BiblioNexus

namespace BiblioNexus

theorem scanMarks_eq_scanMarks2 (rm : List (String × String)) :
    ∀ ms : List Json, scanMarks rm ms = scanMarks2 rm ms
  | [] => rfl
  | mark :: rest => by
    have ih := scanMarks_eq_scanMarks2 rm rest
    unfold scanMarks scanMarks2
    cases mark with
    | obj mfs => simp only [ih]
    | null => rfl
    | bool b => rfl
    | num n => rfl
    | str s => rfl
    | arr xs => rfl

theorem extractConcat_congr (rm : List (String × String)) :
    ∀ items : List Json,
      (∀ x ∈ items, extract_text_from_tiptap x rm = extract_text_from_tiptap2 x rm) →
      extractConcat items rm = extractConcat2 items rm
  | [], _ => by rw [extractConcat_nil, extractConcat2_nil]
  | x :: xs, h => by
    rw [extractConcat_cons, extractConcat2_cons, h x (by simp),
      extractConcat_congr rm xs (fun y hy => h y (by simp [hy]))]

theorem extract_eq_aux :
    ∀ n tc rm, jsize tc ≤ n →
      extract_text_from_tiptap tc rm = extract_text_from_tiptap2 tc rm := by
  intro n
  induction n using Nat.strong_induction_on with
  | _ n ih =>
    intro tc rm hle
    match tc with
    | .null => rw [extract_text_from_tiptap.eq_def, extract_text_from_tiptap2.eq_def]
    | .bool b => rw [extract_text_from_tiptap.eq_def, extract_text_from_tiptap2.eq_def]
    | .num k => rw [extract_text_from_tiptap.eq_def, extract_text_from_tiptap2.eq_def]
    | .str s => rw [extract_text_from_tiptap.eq_def, extract_text_from_tiptap2.eq_def]
    | .arr items =>
      rw [extract_arr, extract2_arr, extractConcat_congr rm items ?helem]
      case helem =>
        intro x hx
        have h1 := jsize_mem hx
        have h2 : jsize (Json.arr items) = 1 + jsizeList items := rfl
        exact ih (jsize x) (by omega) x rm le_rfl
    | .obj fields =>
      cases ht : jLookup fields "text" with
      | some text =>
        rw [extract_leaf fields rm text ht, extract2_leaf fields rm text ht]
        simp only [scanMarks_eq_scanMarks2]
      | none =>
        cases hc : jLookup fields "content" with
        | some cv =>
          rw [extract_content fields rm cv ht hc, extract2_content fields rm cv ht hc]
          cases hi : pyIter cv with
          | none => rfl
          | some items =>
            have h1 := jLookup_size hc
            have h2 := pyIter_size hi
            have h3 : jsize (Json.obj fields) = 1 + jsizeFields fields := rfl
            dsimp only
            rw [extractConcat_congr rm items ?helem2]
            case helem2 =>
              intro x hx
              have h4 := jsize_mem hx
              exact ih (jsize x) (by omega) x rm le_rfl
        | none => rw [extract_objEmpty fields rm ht hc, extract2_objEmpty fields rm ht hc]

theorem extract_eq_extract2 (tc : Json) (rm : List (String × String)) :
    extract_text_from_tiptap tc rm = extract_text_from_tiptap2 tc rm :=
  extract_eq_aux (jsize tc) tc rm le_rfl

end BiblioNexus

namespace BiblioNexus

theorem nodeWF_leaf (rm : List (String × String)) (fields : List (String × Json))
    (text : Json) (ht : jLookup fields "text" = some text) :
    nodeWF rm (.obj fields) =
      ((match text with
        | .str _ => true
        | _ => false) &&
       (match jLookup fields "marks" with
        | none => true
        | some mv =>
          match pyIter mv with
          | none => false
          | some marks => marks.all (markWF rm))) := by
  rw [nodeWF.eq_def]
  simp only [ht]
  cases text <;> rfl

theorem nodeWF_content (rm : List (String × String)) (fields : List (String × Json))
    (cv : Json) (ht : jLookup fields "text" = none)
    (hc : jLookup fields "content" = some cv) :
    nodeWF rm (.obj fields) =
      (match pyIter cv with
       | none => false
       | some items => listWF rm items) := by
  rw [nodeWF.eq_def]
  simp only [ht]
  split
  · rename_i cv2 hcv2
    rw [hc] at hcv2
    injection hcv2 with h
    subst h
    split
    · rename_i heq
      simp only [heq]
    · rename_i items heq
      simp only [heq]
  · rename_i hcv2
    rw [hc] at hcv2
    cases hcv2

theorem listWF_cons (rm : List (String × String)) (x : Json) (xs : List Json) :
    listWF rm (x :: xs) = (nodeWF rm x && listWF rm xs) := by
  rw [listWF.eq_def]

theorem nodeWF_arr (rm : List (String × String)) (items : List Json) :
    nodeWF rm (.arr items) = listWF rm items := by
  rw [nodeWF.eq_def]

/-- Under well-formed marks the scanning loop never raises and returns
exactly whether some mark satisfies the full match condition. -/
theorem scanMarks_ok (rm : List (String × String)) :
    ∀ ms : List Json, (∀ m ∈ ms, markWF rm m = true) →
      scanMarks rm ms = .ok (ms.any (markMatches rm))
  | [], _ => rfl
  | mark :: rest, h => by
    have hm := h mark (by simp)
    have ih := scanMarks_ok rm rest (fun m hm2 => h m (by simp [hm2]))
    match mark with
    | .obj mfs =>
      unfold scanMarks
      simp only [markWF] at hm
      by_cases htype : jsonEqStr ((jLookup mfs "type").getD .null) "resourceReference"
      · simp only [htype, if_true] at hm ⊢
        match hattr : (jLookup mfs "attrs").getD (.obj []) with
        | .obj afs =>
          simp only [hattr] at hm ⊢
          by_cases hemp : rm.isEmpty
          · simp only [hemp, if_true, ih, List.any_cons, markMatches, htype, hattr]
            simp [hemp]
          · simp only [hemp, if_false] at hm ⊢
            simp only [Bool.false_or] at hm
            simp only [hm, if_true]
            by_cases hkey : inKeys ((jLookup afs "resourceId").getD .null) rm
            · simp [hkey, List.any_cons, markMatches, htype, hattr, hemp, hm]
            · simp [hkey, ih, List.any_cons, markMatches, htype, hattr, hemp, hm]
        | .null | .bool _ | .num _ | .str _ | .arr _ =>
          simp only [hattr] at hm
          cases hm
      · simp only [htype, if_false, ih, List.any_cons, markMatches]
        simp [htype]
    | .null | .bool b | .num n | .str s | .arr xs => simp [markWF] at hm

end BiblioNexus

namespace BiblioNexus

theorem extractConcat_total (rm : List (String × String)) :
    ∀ items : List Json,
      (∀ x ∈ items, nodeWF rm x = true →
        ∃ s, extract_text_from_tiptap x rm = .ok (.str s)) →
      listWF rm items = true →
      ∃ s, extractConcat items rm = .ok s
  | [], _, _ => ⟨"", extractConcat_nil rm⟩
  | x :: xs, h, hwf => by
    rw [listWF_cons] at hwf
    simp only [Bool.and_eq_true] at hwf
    obtain ⟨s1, hs1⟩ := h x (by simp) hwf.1
    obtain ⟨s2, hs2⟩ :=
      extractConcat_total rm xs (fun y hy => h y (by simp [hy])) hwf.2
    exact ⟨s1 ++ s2, by rw [extractConcat_cons, hs1, hs2]⟩

theorem extract_total_aux :
    ∀ n tc rm, jsize tc ≤ n → nodeWF rm tc = true →
      ∃ s, extract_text_from_tiptap tc rm = .ok (.str s) := by
  intro n
  induction n using Nat.strong_induction_on with
  | _ n ih =>
    intro tc rm hle hwf
    match tc with
    | .null => exact ⟨"", by rw [extract_text_from_tiptap.eq_def]⟩
    | .bool b => exact ⟨"", by rw [extract_text_from_tiptap.eq_def]⟩
    | .num k => exact ⟨"", by rw [extract_text_from_tiptap.eq_def]⟩
    | .str s => exact ⟨"", by rw [extract_text_from_tiptap.eq_def]⟩
    | .arr items =>
      rw [nodeWF_arr] at hwf
      have helem : ∀ x ∈ items, nodeWF rm x = true →
          ∃ s, extract_text_from_tiptap x rm = .ok (.str s) := by
        intro x hx hxwf
        have h1 := jsize_mem hx
        have h2 : jsize (Json.arr items) = 1 + jsizeList items := rfl
        exact ih (jsize x) (by omega) x rm le_rfl hxwf
      obtain ⟨s, hs⟩ := extractConcat_total rm items helem hwf
      exact ⟨s, by rw [extract_arr, hs]; rfl⟩
    | .obj fields =>
      cases ht : jLookup fields "text" with
      | some text =>
        rw [nodeWF_leaf rm fields text ht] at hwf
        simp only [Bool.and_eq_true] at hwf
        obtain ⟨hstr, hmarks⟩ := hwf
        cases text with
        | null => cases hstr
        | bool b => cases hstr
        | num k => cases hstr
        | arr xs => cases hstr
        | obj kvs => cases hstr
        | str t =>
          rw [extract_leaf fields rm (.str t) ht]
          cases hmv : jLookup fields "marks" with
          | none => exact ⟨t, rfl⟩
          | some mv =>
            rw [hmv] at hmarks
            dsimp only at hmarks ⊢
            cases hiv : pyIter mv with
            | none =>
              rw [hiv] at hmarks
              dsimp only at hmarks
              cases hmarks
            | some marks =>
              rw [hiv] at hmarks
              dsimp only at hmarks ⊢
              rw [scanMarks_ok rm marks (by simpa [List.all_eq_true] using hmarks)]
              cases marks.any (markMatches rm)
              · exact ⟨t, rfl⟩
              · exact ⟨"\\k " ++ pyStr (.str t) ++ "\\k*", rfl⟩
      | none =>
        cases hc : jLookup fields "content" with
        | some cv =>
          rw [nodeWF_content rm fields cv ht hc] at hwf
          rw [extract_content fields rm cv ht hc]
          cases hi : pyIter cv with
          | none =>
            rw [hi] at hwf
            dsimp only at hwf
            cases hwf
          | some items =>
            rw [hi] at hwf
            dsimp only at hwf
            have h1 := jLookup_size hc
            have h2 := pyIter_size hi
            have h3 : jsize (Json.obj fields) = 1 + jsizeFields fields := rfl
            have helem2 : ∀ x ∈ items, nodeWF rm x = true →
                ∃ s, extract_text_from_tiptap x rm = .ok (.str s) := by
              intro x hx hxwf
              have h4 := jsize_mem hx
              exact ih (jsize x) (by omega) x rm le_rfl hxwf
            obtain ⟨s, hs⟩ := extractConcat_total rm items helem2 hwf
            exact ⟨s, by dsimp only; rw [hs]; rfl⟩
        | none => exact ⟨"", extract_objEmpty fields rm ht hc⟩

theorem extract_total (tc : Json) (rm : List (String × String))
    (h : nodeWF rm tc = true) :
    ∃ s, extract_text_from_tiptap tc rm = .ok (.str s) :=
  extract_total_aux (jsize tc) tc rm le_rfl h

end BiblioNexus

namespace BiblioNexus

set_option maxRecDepth 10000 in
set_option maxHeartbeats 4000000 in
/-- **C4.** The pattern rules of the Reference Tagger, applied in fixed
order for every book name in the fixed list, rewrite as specified:
`tagReferences("Genesis chapter 2") = "\xt Genesis 2\xt*"` (the word
`chapter` removed), `tagReferences("Hebrews chapters 3 and 4") =
"\xt Hebrews 3-4\xt*"` (a single reference spanning 3-4), and
`tagReferences("book of Judges") = "book of \xt Judges\xt*"` (the words
`book of ` stay outside the tag) — for both copies of
`format_scripture_references`. -/
theorem C4_pattern_rules :
    format_scripture_references "Genesis chapter 2" = "\\xt Genesis 2\\xt*" ∧
    format_scripture_references "Hebrews chapters 3 and 4" = "\\xt Hebrews 3-4\\xt*" ∧
    format_scripture_references "book of Judges" = "book of \\xt Judges\\xt*" ∧
    format_scripture_references2 "Genesis chapter 2" = "\\xt Genesis 2\\xt*" ∧
    format_scripture_references2 "Hebrews chapters 3 and 4" = "\\xt Hebrews 3-4\\xt*" ∧
    format_scripture_references2 "book of Judges" = "book of \\xt Judges\\xt*" := by
  refine ⟨?_, ?_, ?_, ?_, ?_, ?_⟩ <;> decide

set_option maxRecDepth 20000 in
set_option maxHeartbeats 8000000 in
/-- **C5.** The Reference Tagger is not idempotent: on `"Psalm 95"` the
output still contains the literal `"Psalm 95"`, so a second run wraps it
again (in both copies). -/
theorem C5_not_idempotent :
    format_scripture_references (format_scripture_references "Psalm 95") ≠
      format_scripture_references "Psalm 95" ∧
    format_scripture_references2 (format_scripture_references2 "Psalm 95") ≠
      format_scripture_references2 "Psalm 95" := by
  refine ⟨?_, ?_⟩ <;> decide

set_option maxRecDepth 10000 in
set_option maxHeartbeats 4000000 in
/-- **C6 counterexample.** The two Reference Taggers are not extensionally
equal: the study-notes copy has a hard-coded literal rule for
`"Exodus 34:6"` that the dictionary copy lacks, so the two pipelines'
`format_scripture_references` differ on the input `"Exodus 34:6"`. -/
theorem C6_counterexample :
    format_scripture_references "Exodus 34:6" = "\\xt Exodus 34:6\\xt*" ∧
    format_scripture_references2 "Exodus 34:6" = "Exodus 34:6" ∧
    format_scripture_references "Exodus 34:6" ≠ format_scripture_references2 "Exodus 34:6" := by
  refine ⟨?_, ?_, ?_⟩ <;> decide

/-- **C6 (amended).** The two Tree Flatteners are extensionally equal; the
two Reference Taggers agree only after adding the study-notes copy's
extra `"Exodus 34:6"` literal rule to the dictionary copy (in the same,
last position of the literal block). -/
theorem C6_amended_pipelines_agree :
    (∀ tc rm, extract_text_from_tiptap tc rm = extract_text_from_tiptap2 tc rm) ∧
    (∀ t, format_scripture_references t = format_scripture_references2_withExodus t) :=
  ⟨extract_eq_extract2, fun _ => rfl⟩

end BiblioNexus

namespace BiblioNexus

set_option maxRecDepth 4000 in
/-- **C8.** `extract_book_and_reference` splits the base filename on
underscores; a purely numeric first segment is joined with the second
segment into a two-token book name, otherwise the first segment alone is
the book name; the middle segments (the trailing internal-id segment
excluded) are re-joined and their separators turned into `':'`.  In
particular `"1_Corinthians_7_1_12_99999.json"` parses to
`("1 Corinthians", "7:1:12")` and `"Matthew_7_1_12_132540.json"` to
`("Matthew", "7:1:12")`. -/
theorem C8_filename_parsing :
    extract_book_and_reference "1_Corinthians_7_1_12_99999.json" =
      .ok ("1 Corinthians", "7:1:12") ∧
    extract_book_and_reference "Matthew_7_1_12_132540.json" =
      .ok ("Matthew", "7:1:12") ∧
    (∀ fn p0 p1 rest, pySplit (pyBasename fn) '_' = p0 :: p1 :: rest →
      pyIsDigit p0 = true →
      extract_book_and_reference fn =
        .ok (p0 ++ " " ++ p1,
          pyReplace (String.intercalate "_" rest.dropLast) "_" ":")) ∧
    (∀ fn p0 rest, pySplit (pyBasename fn) '_' = p0 :: rest →
      pyIsDigit p0 = false →
      extract_book_and_reference fn =
        .ok (p0, pyReplace (String.intercalate "_" rest.dropLast) "_" ":")) := by
  refine ⟨by decide, by decide, ?_, ?_⟩
  · intro fn p0 p1 rest hsplit hdig
    unfold extract_book_and_reference
    simp only [hsplit, hdig]
    simp
  · intro fn p0 rest hsplit hdig
    unfold extract_book_and_reference
    simp only [hsplit, hdig]
    cases rest with
    | nil => simp
    | cons p1 rest2 => simp

/-- **C8 witness.** The general branches of `C8_filename_parsing`
instantiated at the two example filenames. -/
theorem C8_filename_parsing_witness :
    extract_book_and_reference "1_Corinthians_7_1_12_99999.json" =
      .ok ("1 Corinthians",
        pyReplace (String.intercalate "_" (["7", "1", "12", "99999.json"].dropLast)) "_" ":") ∧
    extract_book_and_reference "Matthew_7_1_12_132540.json" =
      .ok ("Matthew",
        pyReplace (String.intercalate "_" (["7", "1", "12", "132540.json"].dropLast)) "_" ":") :=
  ⟨C8_filename_parsing.2.2.1 "1_Corinthians_7_1_12_99999.json" "1" "Corinthians"
      ["7", "1", "12", "99999.json"] (by decide) (by decide),
   C8_filename_parsing.2.2.2 "Matthew_7_1_12_132540.json" "Matthew"
      ["7", "1", "12", "132540.json"] (by decide) (by decide)⟩

/-- **C9.** `get_book_id` is total: every name in the `book_ids` table maps
to its fixed 3-letter code (in particular `"Matthew"` to `"MAT"`), and
every name outside the table maps to the sentinel `"UNK"`. -/
theorem C9_book_id_total :
    get_book_id "Matthew" = "MAT" ∧
    (∀ s v, strLookup book_ids s = some v → get_book_id s = v) ∧
    (∀ s, strLookup book_ids s = none → get_book_id s = "UNK") := by
  refine ⟨by decide, ?_, ?_⟩
  · intro s v h
    unfold get_book_id
    rw [h]
    rfl
  · intro s h
    unfold get_book_id
    rw [h]
    rfl

/-- **C9 witness.** `C9_book_id_total` instantiated: `"Mark"` is in the
table (code `"MRK"`), `"Gondor"` is not (code `"UNK"`). -/
theorem C9_book_id_total_witness :
    get_book_id "Mark" = "MRK" ∧ get_book_id "Gondor" = "UNK" :=
  ⟨C9_book_id_total.2.1 "Mark" "MRK" (by decide),
   C9_book_id_total.2.2 "Gondor" (by decide)⟩

end BiblioNexus

namespace BiblioNexus

theorem list_any_congr {α : Type} (l : List α) (f g : α → Bool)
    (h : ∀ x ∈ l, f x = g x) : l.any f = l.any g := by
  induction l with
  | nil => rfl
  | cons x xs ih =>
    simp only [List.any_cons, h x (by simp), ih (fun y hy => h y (by simp [hy]))]

theorem inKeys_hashable {j : Json} {rm : List (String × String)}
    (h : inKeys j rm = true) : hashable j = true := by
  simp only [inKeys, List.any_eq_true] at h
  obtain ⟨kv, _, hkv⟩ := h
  match j with
  | .str s => rfl
  | .null | .bool _ | .num _ | .arr _ | .obj _ => simp [jsonEqStr] at hkv

theorem inKeys_ne_nil {j : Json} {rm : List (String × String)}
    (h : inKeys j rm = true) : rm.isEmpty = false := by
  match rm with
  | [] => simp [inKeys] at h
  | kv :: rest => rfl

/-- Under `markWF` the loop's full match condition coincides with the
specification's phrasing: a `resourceReference`-kind mark whose
identifier is a key of the resource map. -/
theorem markMatches_eq_spec (rm : List (String × String)) (m : Json)
    (h : markWF rm m = true) :
    markMatches rm m = (isResourceRefMark m && inKeys (markId m) rm) := by
  match m with
  | .obj mfs =>
    simp only [markWF] at h
    simp only [markMatches, isResourceRefMark, markId]
    by_cases htype : jsonEqStr ((jLookup mfs "type").getD .null) "resourceReference"
    · simp only [htype, if_true] at h
      simp only [htype, Bool.true_and]
      match hattr : (jLookup mfs "attrs").getD (.obj []) with
      | .obj afs =>
        simp only [hattr] at h ⊢
        cases hkey : inKeys ((jLookup afs "resourceId").getD .null) rm
        · simp [hkey]
        · have hh := inKeys_hashable hkey
          have hn := inKeys_ne_nil hkey
          simp [hkey, hh, hn]
      | .null => simp only [hattr] at h; cases h
      | .bool b => simp only [hattr] at h; cases h
      | .num n => simp only [hattr] at h; cases h
      | .str s => simp only [hattr] at h; cases h
      | .arr xs => simp only [hattr] at h; cases h
    · simp [htype]
  | .null | .bool _ | .num _ | .str _ | .arr _ => simp [markWF] at h

/-- **C1.** A text leaf whose marks are well-formed flattens to the fixed
tag wrapper `"\k " ++ text ++ "\k*"` exactly when it carries a
`resourceReference` mark whose identifier is a key of the resource map,
and to the raw text unchanged otherwise (no marks key, only other mark
kinds, or only `resourceReference` marks with identifiers absent from
the map). -/
theorem C1_leaf_tagging (fields : List (String × Json)) (rm : List (String × String))
    (t : String) (ht : jLookup fields "text" = some (.str t))
    (hWF : leafMarksWF rm fields) :
    extract_text_from_tiptap (.obj fields) rm =
      .ok (.str (if hasMapMark rm fields then "\\k " ++ t ++ "\\k*" else t)) := by
  rw [extract_leaf fields rm (.str t) ht]
  unfold leafMarksWF at hWF
  unfold hasMapMark
  cases hmv : jLookup fields "marks" with
  | none => simp
  | some mv =>
    rw [hmv] at hWF
    dsimp only at hWF ⊢
    cases hiv : pyIter mv with
    | none =>
      rw [hiv] at hWF
      dsimp only at hWF
    | some marks =>
      rw [hiv] at hWF
      dsimp only at hWF ⊢
      rw [scanMarks_ok rm marks hWF]
      rw [list_any_congr marks _ _ (fun m hm => markMatches_eq_spec rm m (hWF m hm))]
      cases marks.any (fun m => isResourceRefMark m && inKeys (markId m) rm)
      · simp [pyStr]
      · simp [pyStr]

/-- **C1 witness.** `C1_leaf_tagging` at a leaf carrying a matching
`resourceReference` mark under the map `{"1": "Faith"}`. -/
theorem C1_leaf_tagging_witness :
    extract_text_from_tiptap
      (.obj [("text", .str "hi"),
             ("marks", .arr [.obj [("type", .str "resourceReference"),
                                   ("attrs", .obj [("resourceId", .str "1")])]])])
      [("1", "Faith")] =
      .ok (.str (if hasMapMark [("1", "Faith")]
          [("text", .str "hi"),
           ("marks", .arr [.obj [("type", .str "resourceReference"),
                                 ("attrs", .obj [("resourceId", .str "1")])]])]
        then "\\k " ++ "hi" ++ "\\k*" else "hi")) :=
  C1_leaf_tagging _ [("1", "Faith")] "hi" (by simp [jLookup])
    (by simp [leafMarksWF, jLookup, pyIter, markWF, jsonEqStr, hashable])

end BiblioNexus

namespace BiblioNexus

/-- A mark satisfying the full match condition makes the loop return the
tagged form at once. -/
theorem scanMarks_hit (rm : List (String × String)) (m : Json) (rest : List Json)
    (h : markMatches rm m = true) : scanMarks rm (m :: rest) = .ok true := by
  match m with
  | .obj mfs =>
    simp only [markMatches, Bool.and_eq_true] at h
    obtain ⟨htype, hrest⟩ := h
    unfold scanMarks
    simp only [htype, if_true]
    match hattr : (jLookup mfs "attrs").getD (.obj []) with
    | .obj afs =>
      simp only [hattr] at hrest ⊢
      simp only [Bool.and_eq_true] at hrest
      obtain ⟨⟨hne, hhash⟩, hkey⟩ := hrest
      have : rm.isEmpty = false := by
        cases hh : rm.isEmpty
        · rfl
        · rw [hh] at hne
          cases hne
      simp [this, hhash, hkey]
    | .null => simp only [hattr] at hrest; cases hrest
    | .bool b => simp only [hattr] at hrest; cases hrest
    | .num n => simp only [hattr] at hrest; cases hrest
    | .str s => simp only [hattr] at hrest; cases hrest
    | .arr xs => simp only [hattr] at hrest; cases hrest
  | .null | .bool _ | .num _ | .str _ | .arr _ => simp [markMatches] at h

/-- A well-formed, non-matching mark is skipped and the loop continues. -/
theorem scanMarks_skip (rm : List (String × String)) (m : Json) (rest : List Json)
    (hwf : markWF rm m = true) (hnm : markMatches rm m = false) :
    scanMarks rm (m :: rest) = scanMarks rm rest := by
  match m with
  | .obj mfs =>
    simp only [markWF] at hwf
    simp only [markMatches] at hnm
    conv_lhs => rw [scanMarks.eq_def]
    by_cases htype : jsonEqStr ((jLookup mfs "type").getD .null) "resourceReference"
    · simp only [htype, if_true] at hwf ⊢
      simp only [htype, Bool.true_and] at hnm
      match hattr : (jLookup mfs "attrs").getD (.obj []) with
      | .obj afs =>
        simp only [hattr] at hwf hnm ⊢
        cases hemp : rm.isEmpty
        · simp only [hemp, Bool.false_or] at hwf
          simp only [hemp, Bool.not_false, Bool.true_and, hwf, Bool.true_and] at hnm
          simp [hemp, hwf, hnm]
        · simp [hemp]
      | .null => simp only [hattr] at hwf; cases hwf
      | .bool b => simp only [hattr] at hwf; cases hwf
      | .num n => simp only [hattr] at hwf; cases hwf
      | .str s => simp only [hattr] at hwf; cases hwf
      | .arr xs => simp only [hattr] at hwf; cases hwf
    · simp [htype]
  | .null | .bool _ | .num _ | .str _ | .arr _ => simp [markWF] at hwf

/-- The loop returns the tagged form as soon as it reaches the first
fully matching mark, whatever follows it. -/
theorem scanMarks_first (rm : List (String × String)) (ms1 : List Json) (m : Json)
    (ms2 : List Json)
    (h1 : ∀ m2 ∈ ms1, markWF rm m2 = true ∧ markMatches rm m2 = false)
    (hm : markMatches rm m = true) :
    scanMarks rm (ms1 ++ m :: ms2) = .ok true := by
  induction ms1 with
  | nil => exact scanMarks_hit rm m ms2 hm
  | cons x xs ih =>
    obtain ⟨hwf, hnm⟩ := h1 x (by simp)
    rw [List.cons_append, scanMarks_skip rm x (xs ++ m :: ms2) hwf hnm]
    exact ih (fun y hy => h1 y (by simp [hy]))

/-- **C7 counterexample.** A leaf with two `resourceReference` marks, the
first with identifier `"x"` absent from the map `{"1": "Faith"}` and the
second with identifier `"1"` present in it: the loop does not stop at
the first `resourceReference` mark — it skips it and tags the leaf from
the second one, so the leaf is not rendered as plain raw text. -/
theorem C7_counterexample :
    extract_text_from_tiptap
      (.obj [("text", .str "a"),
             ("marks", .arr [.obj [("type", .str "resourceReference"),
                                   ("attrs", .obj [("resourceId", .str "x")])],
                             .obj [("type", .str "resourceReference"),
                                   ("attrs", .obj [("resourceId", .str "1")])]])])
      [("1", "Faith")] = .ok (.str "\\k a\\k*") ∧
    ¬ (extract_text_from_tiptap
      (.obj [("text", .str "a"),
             ("marks", .arr [.obj [("type", .str "resourceReference"),
                                   ("attrs", .obj [("resourceId", .str "x")])],
                             .obj [("type", .str "resourceReference"),
                                   ("attrs", .obj [("resourceId", .str "1")])]])])
      [("1", "Faith")] = .ok (.str "a")) := by
  constructor
  · simp [extract_text_from_tiptap, jLookup, pyIter, scanMarks, jsonEqStr, hashable,
      inKeys, pyStr]
  · simp [extract_text_from_tiptap, jLookup, pyIter, scanMarks, jsonEqStr, hashable,
      inKeys, pyStr]

/-- **C7 (amended).** In mark-list order, the first mark satisfying the
full condition (kind `resourceReference` and identifier in the map)
determines the output: marks before it that are well-formed and not fully
matching (other kinds, or `resourceReference` with an unmapped
identifier) are skipped with no effect, and once it is reached the leaf
renders as the tagged span regardless of everything after it. -/
theorem C7_first_full_match (fields : List (String × Json)) (rm : List (String × String))
    (t : String) (mv : Json) (ms1 : List Json) (m : Json) (ms2 : List Json)
    (ht : jLookup fields "text" = some (.str t))
    (hmv : jLookup fields "marks" = some mv)
    (hiv : pyIter mv = some (ms1 ++ m :: ms2))
    (h1 : ∀ m2 ∈ ms1, markWF rm m2 = true ∧ markMatches rm m2 = false)
    (hm : markMatches rm m = true) :
    extract_text_from_tiptap (.obj fields) rm = .ok (.str ("\\k " ++ t ++ "\\k*")) := by
  rw [extract_leaf fields rm (.str t) ht, hmv]
  dsimp only
  rw [hiv]
  dsimp only
  rw [scanMarks_first rm ms1 m ms2 h1 hm]
  simp [pyStr]

/-- **C7 witness.** `C7_first_full_match` at a leaf whose mark list holds
a `bold` mark, a `resourceReference` mark with unmapped identifier
`"x"`, and then a matching `resourceReference` mark, followed by junk. -/
theorem C7_first_full_match_witness :
    extract_text_from_tiptap
      (.obj [("text", .str "b"),
             ("marks", .arr [.obj [("type", .str "bold")],
                             .obj [("type", .str "resourceReference"),
                                   ("attrs", .obj [("resourceId", .str "x")])],
                             .obj [("type", .str "resourceReference"),
                                   ("attrs", .obj [("resourceId", .str "2")])],
                             .num 7])])
      [("2", "Grace")] = .ok (.str ("\\k " ++ "b" ++ "\\k*")) :=
  C7_first_full_match _ [("2", "Grace")] "b"
    (.arr [.obj [("type", .str "bold")],
           .obj [("type", .str "resourceReference"), ("attrs", .obj [("resourceId", .str "x")])],
           .obj [("type", .str "resourceReference"), ("attrs", .obj [("resourceId", .str "2")])],
           .num 7])
    [.obj [("type", .str "bold")],
     .obj [("type", .str "resourceReference"), ("attrs", .obj [("resourceId", .str "x")])]]
    (.obj [("type", .str "resourceReference"), ("attrs", .obj [("resourceId", .str "2")])])
    [.num 7]
    (by simp [jLookup]) (by simp [jLookup]) (by simp [pyIter])
    (by
      intro m2 hm2
      simp only [List.mem_cons, List.not_mem_nil, or_false] at hm2
      rcases hm2 with h | h
      · subst h
        constructor
        · simp [markWF, jLookup, jsonEqStr]
        · simp [markMatches, jLookup, jsonEqStr]
      · subst h
        constructor
        · simp [markWF, jLookup, jsonEqStr, hashable]
        · simp [markMatches, jLookup, jsonEqStr, inKeys])
    (by simp [markMatches, jLookup, jsonEqStr, hashable, inKeys])

end BiblioNexus

namespace BiblioNexus

/-- **C2.** Flattening a container or a bare list is the ordered
concatenation of flattening the children, with no separator:
`flatten([a,b,c], m) = flatten(a,m) ++ flatten(b,m) ++ flatten(c,m)`,
and the same for a dict with that list under `'content'` and no
`'text'` key. -/
theorem C2_container_concat (a b c : Json) (rm : List (String × String))
    (sa sb sc : String)
    (ha : extract_text_from_tiptap a rm = .ok (.str sa))
    (hb : extract_text_from_tiptap b rm = .ok (.str sb))
    (hc : extract_text_from_tiptap c rm = .ok (.str sc)) :
    extract_text_from_tiptap (.arr [a, b, c]) rm = .ok (.str (sa ++ sb ++ sc)) ∧
    (∀ fields, jLookup fields "text" = none →
      jLookup fields "content" = some (.arr [a, b, c]) →
      extract_text_from_tiptap (.obj fields) rm = .ok (.str (sa ++ sb ++ sc))) := by
  have hcc : extractConcat [a, b, c] rm = .ok (sa ++ sb ++ sc) := by
    rw [extractConcat_cons, ha]
    dsimp only
    rw [extractConcat_cons, hb]
    dsimp only
    rw [extractConcat_cons, hc]
    dsimp only
    rw [extractConcat_nil]
    dsimp only
    simp [String.append_assoc]
  constructor
  · rw [extract_arr, hcc]
    rfl
  · intro fields ht hcon
    rw [extract_content fields rm _ ht hcon]
    dsimp only [pyIter]
    rw [hcc]
    rfl

/-- **C2 witness.** `C2_container_concat` at three concrete text leaves:
the bare list and the container both flatten to `"xyz"`. -/
theorem C2_container_concat_witness :
    extract_text_from_tiptap
      (.arr [.obj [("text", .str "x")], .obj [("text", .str "y")],
             .obj [("text", .str "z")]]) [] = .ok (.str ("x" ++ "y" ++ "z")) ∧
    extract_text_from_tiptap
      (.obj [("content", .arr [.obj [("text", .str "x")], .obj [("text", .str "y")],
                               .obj [("text", .str "z")]])]) [] =
      .ok (.str ("x" ++ "y" ++ "z")) := by
  have h := C2_container_concat (.obj [("text", .str "x")]) (.obj [("text", .str "y")])
    (.obj [("text", .str "z")]) [] "x" "y" "z"
    (by simp [extract_text_from_tiptap, jLookup])
    (by simp [extract_text_from_tiptap, jLookup])
    (by simp [extract_text_from_tiptap, jLookup])
  exact ⟨h.1, h.2 [("content", .arr [.obj [("text", .str "x")], .obj [("text", .str "y")],
    .obj [("text", .str "z")]])] (by simp [jLookup]) (by simp [jLookup])⟩

/-- **C3 counterexample.** `flatten` does raise on malformed input: a dict
whose `'content'` value is the number `5` makes the Python
`for item in tiptap_content['content']` loop raise `TypeError`
(an `int` is not iterable), so the function neither returns a string nor
stays exception-free on arbitrary input. -/
theorem C3_counterexample :
    extract_text_from_tiptap (.obj [("content", .num 5)]) [] = .error .typeError := by
  simp [extract_text_from_tiptap, jLookup, pyIter]

/-- **C3 (amended).** On every input whose nodes are well-formed — each
`'text'` value a string, each `'marks'` value iterable with marks the
loop can process, each `'content'` value iterable with well-formed
elements; all unrecognized shapes (null, numbers, strings, empty or
unrelated dicts, arbitrarily nested lists of such) remain allowed and
degrade to `""` — `flatten` raises no exception and returns a string.
On arbitrary input it can raise (see the counterexample). -/
theorem C3_flatten_total_on_wellformed (tc : Json) (rm : List (String × String))
    (h : nodeWF rm tc = true) :
    ∃ s : String, extract_text_from_tiptap tc rm = .ok (.str s) :=
  extract_total tc rm h

/-- **C3 witness.** `C3_flatten_total_on_wellformed` at a nested
container holding a text leaf, a null, a number and an empty dict. -/
theorem C3_flatten_total_on_wellformed_witness :
    ∃ s : String, extract_text_from_tiptap
      (.obj [("content", .arr [.obj [("text", .str "hi")], .null, .num 3, .obj []])])
      [] = .ok (.str s) :=
  C3_flatten_total_on_wellformed _ []
    (by
      rw [nodeWF_content _ _ (.arr [.obj [("text", .str "hi")], .null, .num 3, .obj []])
        (by simp [jLookup]) (by simp [jLookup])]
      dsimp only [pyIter]
      rw [listWF_cons, listWF_cons, listWF_cons, listWF_cons]
      rw [nodeWF_leaf _ _ (.str "hi") (by simp [jLookup])]
      rw [nodeWF.eq_def]
      simp [jLookup, listWF.eq_def, nodeWF.eq_def])

end BiblioNexus

namespace BiblioNexus

/-- **C10.** In the study-notes pipeline the reference label rendered in
the output record is the document's `'name'` field, not the filename
reference: whenever `process_json_file` succeeds, the returned reference
is `data.get('name', '')`, the rendered line is
`"\im \bd " ++ str(name) ++ "\bd* " ++ body ++ "\n"`, the returned book
name is the one parsed from the filename — and the whole result depends
on the filename only through that book name (the colon-joined reference
from `extract_book_and_reference` is discarded). -/
theorem C10_reference_label_from_name :
    (∀ fp data rm b ref u, process_json_file fp data rm = .ok (b, ref, u) →
      (∃ dfs, data = .obj dfs ∧ ref = (jLookup dfs "name").getD (.str "")) ∧
      (∃ body, u = "\\im \\bd " ++ pyStr ref ++ "\\bd* " ++ body ++ "\n") ∧
      (∃ r, extract_book_and_reference fp = .ok (b, r))) ∧
    (∀ fp fp2 data rm,
      (extract_book_and_reference fp).map Prod.fst =
        (extract_book_and_reference fp2).map Prod.fst →
      process_json_file fp data rm = process_json_file fp2 data rm) := by
  constructor
  · intro fp data rm b ref u hok
    match data with
    | .obj dfs =>
      unfold process_json_file at hok
      dsimp only at hok
      match hbr : extract_book_and_reference fp with
      | .error e =>
        rw [hbr] at hok
        cases hok
      | .ok (book, r) =>
        rw [hbr] at hok
        dsimp only at hok
        match hi : pyIter ((jLookup dfs "content").getD (.arr [])) with
        | none =>
          rw [hi] at hok
          cases hok
        | some items =>
          rw [hi] at hok
          dsimp only at hok
          match hpc : processContent items rm with
          | .error e =>
            rw [hpc] at hok
            cases hok
          | .ok ct =>
            rw [hpc] at hok
            dsimp only at hok
            injection hok with hok
            injection hok with h1 hok
            injection hok with h2 h3
            subst h1
            subst h2
            subst h3
            exact ⟨⟨dfs, rfl, rfl⟩, ⟨format_scripture_references ct, rfl⟩, ⟨r, rfl⟩⟩
    | .null | .bool _ | .num _ | .str _ | .arr _ =>
      unfold process_json_file at hok
      cases hok
  · intro fp fp2 data rm hfst
    match data with
    | .obj dfs =>
      unfold process_json_file
      dsimp only
      match h1 : extract_book_and_reference fp, h2 : extract_book_and_reference fp2 with
      | .error e1, .error e2 =>
        rw [h1, h2] at hfst
        injection hfst with he
        rw [he]
      | .error e1, .ok p2 =>
        rw [h1, h2] at hfst
        cases hfst
      | .ok p1, .error e2 =>
        rw [h1, h2] at hfst
        cases hfst
      | .ok (b1, r1), .ok (b2, r2) =>
        rw [h1, h2] at hfst
        injection hfst with hb
        dsimp only at hb
        subst hb
        rfl
    | .null | .bool _ | .num _ | .str _ | .arr _ => rfl

set_option maxRecDepth 4000 in
/-- **C10 witness.** `C10_reference_label_from_name` applied to a concrete
document whose `'name'` is `"7:1"` processed under the filename
`"Matthew_7_1_12_132540.json"`, and to the same document under a second
filename with a different reference part but the same book name. -/
theorem C10_reference_label_from_name_witness :
    ((∃ dfs, (Json.obj [("name", Json.str "7:1")]) = .obj dfs ∧
        (Json.str "7:1") = (jLookup dfs "name").getD (.str "")) ∧
      (∃ body, "\\im \\bd 7:1\\bd* \n" =
        "\\im \\bd " ++ pyStr (.str "7:1") ++ "\\bd* " ++ body ++ "\n") ∧
      (∃ r, extract_book_and_reference "Matthew_7_1_12_132540.json" =
        .ok ("Matthew", r))) ∧
    process_json_file "Matthew_7_1_12_132540.json" (.obj [("name", .str "7:1")]) [] =
      process_json_file "Matthew_9_9_9_77777.json" (.obj [("name", .str "7:1")]) [] :=
  ⟨C10_reference_label_from_name.1 "Matthew_7_1_12_132540.json"
      (.obj [("name", .str "7:1")]) [] "Matthew" (.str "7:1") "\\im \\bd 7:1\\bd* \n"
      (by
        have h1 : extract_book_and_reference "Matthew_7_1_12_132540.json" =
            .ok ("Matthew", "7:1:12") := by decide
        have h2 : format_scripture_references "" = "" := by decide
        unfold process_json_file
        dsimp only
        rw [h1]
        simp [jLookup, pyIter, processContent, h2, pyStr]),
   C10_reference_label_from_name.2 "Matthew_7_1_12_132540.json"
      "Matthew_9_9_9_77777.json" (.obj [("name", .str "7:1")]) [] (by decide)⟩

end BiblioNexus
